import Mathlib

/-
Shallow embedding of the `db` package of vocdoni/zkmultisig-node
(src/db/db.go), the SQLite persistence layer for processes, vote
packages and the sync-checkpoint meta row.

The three SQLite tables created by `Migrate` are modelled as lists of
rows inside a `Store`; each exported method of `*SQLite` becomes a pure
function on `Store`.  SQL statement semantics are translated faithfully:

  * `INSERT` appends a row after checking the table constraints in the
    order SQLite checks them (NOT NULL / UNIQUE checks are generated by
    `sqlite3GenerateConstraintChecks` and run before the foreign-key
    check of `sqlite3FkCheck`; the INTEGER PRIMARY KEY (rowid) conflict
    is detected first, then the implicit UNIQUE indices in column
    declaration order).
  * `UPDATE ... WHERE c` maps over the rows, rewriting the rows that
    match `c`; an update matching no row succeeds and changes nothing.
  * `SELECT ... WHERE id = ?` on a PRIMARY KEY column is a `find?`.
  * `ORDER BY indx ASC` sorts the selected rows by `indx`.
  * `CURRENT_TIMESTAMP` is an explicit `now : Nat` argument.
  * the AUTOINCREMENT id of the `meta` table is modelled by the
    `metaSeq` counter (SQLite's `sqlite_sequence` entry; rows are never
    deleted, so the next id is always `metaSeq + 1`, starting at 1).

Engine-level failures that do not depend on the stored data
(connectivity, I/O, prepare errors) are outside the model; every error
an operation can return for a reason visible in the data is a
`DBError` constructor carrying the Go error the method builds.
-/

namespace ZkDB

/-- Modelled from the spec: the `types.ProcessStatus` enum of the external
`types` package (the package is not part of src/; spec section 4.1 lists the
states `On → Frozen → ProofGenerating → ProofGenerated`).  The db code only
ever compares these values for equality, so only their distinctness
matters. -/
inductive ProcessStatus where
  | on
  | frozen
  | proofGenerating
  | proofGenerated
  deriving DecidableEq

/-- Row of the `processes` table (see `Migrate` in src/db/db.go).  BLOB
columns are byte lists, INTEGER columns are `Nat`, `insertedDatetime` is the
clock value passed to the inserting operation. -/
structure ProcessRow where
  id : Nat
  status : ProcessStatus
  censusRoot : List Nat
  censusSize : Nat
  ethBlockNum : Nat
  resPubStartBlock : Nat
  resPubWindow : Nat
  minParticipation : Nat
  minPositiveVotes : Nat
  typ : Nat
  insertedDatetime : Nat
  deriving DecidableEq

/-- Row of the `votepackages` table (see `Migrate` in src/db/db.go).
`indx` is the INTEGER PRIMARY KEY; `publicKey` and `merkleproof` carry
implicit UNIQUE indices; `processID` is a foreign key into `processes`. -/
structure VotePackageRow where
  indx : Nat
  publicKey : List Nat
  weight : List Nat
  merkleproof : List Nat
  signature : List Nat
  vote : List Nat
  insertedDatetime : Nat
  processID : Nat
  deriving DecidableEq

/-- Row of the `meta` table (see `Migrate` in src/db/db.go); `id` is
assigned by AUTOINCREMENT. -/
structure MetaRow where
  id : Nat
  chainID : Nat
  lastSyncBlockNum : Nat
  lastUpdate : Nat
  deriving DecidableEq

/-- Modelled from the spec: `types.CensusProof`, the census part of a
submitted vote package (external `types` package, not under src/; its fields
are the ones src/db/db.go reads: `Index`, `PublicKey`, `Weight`,
`MerkleProof`).  `Weight` is a `*big.Int`, so an unset weight is `none`. -/
structure CensusProof where
  index : Nat
  publicKey : List Nat
  weight : Option Nat
  merkleProof : List Nat
  deriving DecidableEq

/-- Modelled from the spec: `types.VotePackage` (external `types` package,
not under src/; src/db/db.go reads `Signature`, `CensusProof` and `Vote`).
`Signature` is a fixed 64-byte array in Go; callers always pass 64 bytes. -/
structure VotePackage where
  signature : List Nat
  censusProof : CensusProof
  vote : List Nat
  deriving DecidableEq

/-- State of the database after `Migrate`: the three tables plus the
AUTOINCREMENT sequence counter of the `meta` table. -/
structure Store where
  processes : List ProcessRow
  votepackages : List VotePackageRow
  meta : List MetaRow
  metaSeq : Nat
  deriving DecidableEq

/-- Freshly migrated, empty database. -/
def emptyStore : Store :=
  { processes := [], votepackages := [], meta := [], metaSeq := 0 }

/-- Every data-dependent error a `*SQLite` method can return.  The first
four are the SQLite constraint-violation errors returned verbatim by
`StoreProcess` / `StoreVotePackage` ("UNIQUE constraint failed: ...", naming
the violated column); `processNotFound` is the domain error
`StoreVotePackage` builds from a "FOREIGN KEY constraint failed" engine
error; `processIDNotInDB` is the error `GetProcessStatus` builds from
`sql.ErrNoRows`; `metaNotInDB` is `ErrMetaNotInDB`. -/
inductive DBError where
  | uniqueProcessesId
  | uniqueVotepackagesIndx
  | uniqueVotepackagesPublicKey
  | uniqueVotepackagesMerkleproof
  | processNotFound (processID : Nat)
  | processIDNotInDB (id : Nat)
  | metaNotInDB
  deriving DecidableEq

/-- Big-endian minimal byte encoding of a natural number, as produced by
Go's `big.Int.Bytes()` (the zero value encodes to the empty slice). -/
def natToBytes (n : Nat) : List Nat :=
  if hz : n = 0 then [] else natToBytes (n / 256) ++ [n % 256]
termination_by n
decreasing_by exact Nat.div_lt_self (Nat.pos_of_ne_zero hz) (by decide)

/-- Big-endian byte decoding of a natural number, as performed by Go's
`big.Int.SetBytes`. -/
def bytesToNat (bs : List Nat) : Nat :=
  bs.foldl (fun acc b => acc * 256 + b) 0

/-- Row inserted into `processes` by `StoreProcess`: all caller-supplied
columns plus the status column forced to `types.ProcessStatusOn` and the
insertion timestamp. -/
def processRowOf (now id : Nat) (censusRoot : List Nat)
    (censusSize ethBlockNum resPubStartBlock resPubWindow minParticipation
      minPositiveVotes typ : Nat) : ProcessRow :=
  { id := id
    status := ProcessStatus.on
    censusRoot := censusRoot
    censusSize := censusSize
    ethBlockNum := ethBlockNum
    resPubStartBlock := resPubStartBlock
    resPubWindow := resPubWindow
    minParticipation := minParticipation
    minPositiveVotes := minPositiveVotes
    typ := typ
    insertedDatetime := now }

/-- StoreProcess (src/db/db.go lines 97-129): INSERT INTO processes with
status forced to `types.ProcessStatusOn` and `insertedDatetime` set to the
current time.  The only constraint on the table is the PRIMARY KEY on
`id`; a duplicate id makes the INSERT fail with
"UNIQUE constraint failed: processes.id". -/
def StoreProcess (s : Store) (now id : Nat) (censusRoot : List Nat)
    (censusSize ethBlockNum resPubStartBlock resPubWindow minParticipation
      minPositiveVotes typ : Nat) : Except DBError Store :=
  if ∃ p ∈ s.processes, p.id = id then
    .error .uniqueProcessesId
  else
    .ok { s with processes := s.processes ++ [processRowOf now id censusRoot
      censusSize ethBlockNum resPubStartBlock resPubWindow minParticipation
      minPositiveVotes typ] }

/-- UpdateProcessStatus (src/db/db.go lines 133-149): UPDATE processes SET
status=? WHERE id=?.  An id matching no row leaves the table unchanged and
is not an error. -/
def UpdateProcessStatus (s : Store) (id : Nat) (status : ProcessStatus) :
    Store :=
  { s with processes := s.processes.map (fun p =>
      if p.id = id then { p with status := status } else p) }

/-- GetProcessStatus (src/db/db.go lines 152-164): SELECT status FROM
processes WHERE id = ?; `sql.ErrNoRows` becomes the error
"Process ID:%d, does not exist in the db". -/
def GetProcessStatus (s : Store) (id : Nat) :
    Except DBError ProcessStatus :=
  match s.processes.find? (fun p => decide (p.id = id)) with
  | some p => .ok p.status
  | none => .error (.processIDNotInDB id)

/-- FrozeProcessesByCurrentBlockNum (src/db/db.go lines 219-238): UPDATE
processes SET status = Frozen WHERE (resPubStartBlock <= currBlockNum AND
status = On). -/
def FrozeProcessesByCurrentBlockNum (s : Store) (currBlockNum : Nat) :
    Store :=
  { s with processes := s.processes.map (fun p =>
      if p.resPubStartBlock ≤ currBlockNum ∧ p.status = ProcessStatus.on
      then { p with status := ProcessStatus.frozen }
      else p) }

/-- Row inserted into `votepackages` by `StoreVotePackage`: the INSERT
binds the census-proof fields, the signature bytes and the vote, with the
weight already normalized (`vote.CensusProof.Weight.Bytes()` of the
nil-replaced weight). -/
def voteRowOf (now processID : Nat) (vote : VotePackage) : VotePackageRow :=
  { indx := vote.censusProof.index
    publicKey := vote.censusProof.publicKey
    weight := natToBytes (vote.censusProof.weight.getD 0)
    merkleproof := vote.censusProof.merkleProof
    signature := vote.signature
    vote := vote.vote
    insertedDatetime := now
    processID := processID }

/-- StoreVotePackage (src/db/db.go lines 302-338): a nil weight is replaced
by `big.NewInt(0)`, then INSERT INTO votepackages.  SQLite checks the
uniqueness constraints before the foreign key: the `indx` rowid conflict
first, then the implicit UNIQUE autoindices in reverse declaration order —
`merkleproof` before `publicKey` — and only then the `processID` foreign
key; the "FOREIGN KEY constraint failed" error text is translated by the
Go code into "Can not store VotePackage, ProcessID=%d does not exist",
while the UNIQUE errors are returned verbatim. -/
def StoreVotePackage (s : Store) (now processID : Nat) (vote : VotePackage) :
    Except DBError Store :=
  if ∃ r ∈ s.votepackages, r.indx = vote.censusProof.index then
    .error .uniqueVotepackagesIndx
  else if ∃ r ∈ s.votepackages, r.merkleproof = vote.censusProof.merkleProof then
    .error .uniqueVotepackagesMerkleproof
  else if ∃ r ∈ s.votepackages, r.publicKey = vote.censusProof.publicKey then
    .error .uniqueVotepackagesPublicKey
  else if ∃ p ∈ s.processes, p.id = processID then
    .ok { s with votepackages := s.votepackages ++ [voteRowOf now processID vote] }
  else
    .error (.processNotFound processID)

/-- Copy of `src` into a zeroed fixed-size buffer of `n` bytes, as Go's
`copy(sig[:], sigBytes)` into a `[64]byte`. -/
def copyFixed (n : Nat) (src : List Nat) : List Nat :=
  src.take n ++ List.replicate (n - src.length) 0

/-- Conversion of a `votepackages` row back into a `types.VotePackage`, as
performed by the scan loop of `ReadVotePackagesByProcessID`: the weight
bytes go through `big.Int.SetBytes` and the signature bytes are copied into
a zeroed 64-byte array. -/
def rowToVotePackage (r : VotePackageRow) : VotePackage :=
  { signature := copyFixed 64 r.signature
    censusProof :=
      { index := r.indx
        publicKey := r.publicKey
        weight := some (bytesToNat r.weight)
        merkleProof := r.merkleproof }
    vote := r.vote }

/-- Comparison used by `ORDER BY indx ASC`. -/
def vpLe (a b : VotePackageRow) : Prop := a.indx ≤ b.indx

instance : DecidableRel vpLe :=
  fun a b => inferInstanceAs (Decidable (a.indx ≤ b.indx))

instance : IsTotal VotePackageRow vpLe :=
  ⟨fun a b => Nat.le_total a.indx b.indx⟩

instance : IsTrans VotePackageRow vpLe :=
  ⟨fun _ _ _ h h' => Nat.le_trans h h'⟩

/-- ReadVotePackagesByProcessID (src/db/db.go lines 343-373): SELECT ...
FROM votepackages WHERE processID = ? ORDER BY indx ASC, each row scanned
back into a `types.VotePackage`.  The SELECT itself cannot fail for a
data-dependent reason: an unknown processID simply selects no rows. -/
def ReadVotePackagesByProcessID (s : Store) (processID : Nat) :
    List VotePackage :=
  (List.insertionSort vpLe
    (s.votepackages.filter (fun r => decide (r.processID = processID)))).map
    rowToVotePackage

/-- InitMeta (src/db/db.go lines 376-396): INSERT INTO meta(chainID,
lastSyncBlockNum, lastUpdate); the AUTOINCREMENT column assigns the next
sequence value (1 on a fresh table). -/
def InitMeta (s : Store) (now chainID lastSyncBlockNum : Nat) : Store :=
  { s with
    meta := s.meta ++ [{
      id := s.metaSeq + 1
      chainID := chainID
      lastSyncBlockNum := lastSyncBlockNum
      lastUpdate := now }]
    metaSeq := s.metaSeq + 1 }

/-- UpdateLastSyncBlockNum (src/db/db.go lines 400-416): UPDATE meta SET
lastSyncBlockNum=? WHERE id=?, executed with id 1. -/
def UpdateLastSyncBlockNum (s : Store) (lastSyncBlockNum : Nat) : Store :=
  { s with meta := s.meta.map (fun m =>
      if m.id = 1 then { m with lastSyncBlockNum := lastSyncBlockNum }
      else m) }

/-- GetLastSyncBlockNum (src/db/db.go lines 419-431): SELECT
lastSyncBlockNum FROM meta WHERE id = 1; `sql.ErrNoRows` becomes
`ErrMetaNotInDB`. -/
def GetLastSyncBlockNum (s : Store) : Except DBError Nat :=
  match s.meta.find? (fun m => decide (m.id = 1)) with
  | some m => .ok m.lastSyncBlockNum
  | none => .error .metaNotInDB

/-- Concrete process row used by the witness and counterexample states. -/
def cxProcess : ProcessRow :=
  { id := 1
    status := ProcessStatus.on
    censusRoot := [2]
    censusSize := 1
    ethBlockNum := 1
    resPubStartBlock := 10
    resPubWindow := 5
    minParticipation := 1
    minPositiveVotes := 1
    typ := 1
    insertedDatetime := 0 }

/-- Concrete vote-package row (index 5, for process 1) used by the witness
and counterexample states. -/
def cxRow : VotePackageRow :=
  { indx := 5
    publicKey := [1, 2]
    weight := [1]
    merkleproof := [3]
    signature := [4]
    vote := [7]
    insertedDatetime := 0
    processID := 1 }

/-- Concrete store holding one process (id 1) and one vote package
(index 5). -/
def cxStore : Store :=
  { processes := [cxProcess], votepackages := [cxRow], meta := [], metaSeq := 0 }

/-- Concrete vote package whose index 5 collides with `cxRow` while its
public key and merkle proof are fresh. -/
def cxVote : VotePackage :=
  { signature := [0]
    censusProof :=
      { index := 5, publicKey := [9], weight := some 1, merkleProof := [9] }
    vote := [7] }

/-- Concrete vote package whose public key collides with `cxRow` while its
index and merkle proof are fresh. -/
def vpPkDup : VotePackage :=
  { signature := [0]
    censusProof :=
      { index := 6, publicKey := [1, 2], weight := some 1, merkleProof := [9] }
    vote := [7] }

/-- Concrete vote package whose merkle proof collides with `cxRow` while its
index and public key are fresh. -/
def vpMpDup : VotePackage :=
  { signature := [0]
    censusProof :=
      { index := 7, publicKey := [8], weight := some 1, merkleProof := [3] }
    vote := [7] }

/-- Concrete vote package colliding with nothing in `cxStore`. -/
def vpFresh : VotePackage :=
  { signature := [0]
    censusProof :=
      { index := 9, publicKey := [10], weight := some 2, merkleProof := [11] }
    vote := [7] }

/-- Concrete vote package with an unset weight, colliding with nothing. -/
def vpNoWeight : VotePackage :=
  { signature := [1]
    censusProof :=
      { index := 0, publicKey := [5], weight := none, merkleProof := [6] }
    vote := [7] }

/-- Second concrete row for process 1, out of index order with `cxRow`. -/
def w6RowA : VotePackageRow :=
  { indx := 2
    publicKey := [20]
    weight := []
    merkleproof := [21]
    signature := [22]
    vote := [23]
    insertedDatetime := 0
    processID := 1 }

/-- Concrete row for a second process, id 2. -/
def w6RowB : VotePackageRow :=
  { indx := 9
    publicKey := [30]
    weight := [2]
    merkleproof := [31]
    signature := [32]
    vote := [33]
    insertedDatetime := 0
    processID := 2 }

/-- Concrete store with three vote packages, two of them for process 1 and
stored out of index order. -/
def w6Store : Store :=
  { processes := [cxProcess]
    votepackages := [cxRow, w6RowA, w6RowB]
    meta := []
    metaSeq := 0 }

/-- Concrete store with one process and no vote packages. -/
def w9Store : Store :=
  { processes := [cxProcess], votepackages := [], meta := [], metaSeq := 0 }

/-- Store obtained from `cxStore` by successfully appending `vpFresh` for
process 1 at time 2. -/
def svOkStore : Store :=
  { cxStore with
    votepackages := cxStore.votepackages ++ [voteRowOf 2 1 vpFresh] }

/-- Store obtained from `cxStore` by successfully creating process 77 at
time 3. -/
def spOkStore : Store :=
  { cxStore with
    processes := cxStore.processes ++ [processRowOf 3 77 [1] 1 1 2 2 1 1 1] }

/-- Equality of every `processes` column except `status`: the fields the
spec declares immutable after insertion, plus the insertion timestamp. -/
def sameExceptStatus (p q : ProcessRow) : Prop :=
  q.id = p.id ∧ q.censusRoot = p.censusRoot ∧ q.censusSize = p.censusSize ∧
  q.ethBlockNum = p.ethBlockNum ∧
  q.resPubStartBlock = p.resPubStartBlock ∧
  q.resPubWindow = p.resPubWindow ∧
  q.minParticipation = p.minParticipation ∧
  q.minPositiveVotes = p.minPositiveVotes ∧ q.typ = p.typ ∧
  q.insertedDatetime = p.insertedDatetime

/-- Claim C1: after `FrozeProcessesByCurrentBlockNum` with block number `b`,
the table keeps its length and, row by row, exactly the processes that had
status `On` and `resPubStartBlock ≤ b` now have status `Frozen` (the whole
row otherwise unchanged), while every process that was not `On` or had
`resPubStartBlock > b` is left exactly as it was. -/
theorem frozeProcessesByCurrentBlockNum_status_spec (s : Store) (b : Nat) :
    (FrozeProcessesByCurrentBlockNum s b).processes.length
        = s.processes.length ∧
    ∀ i : Nat, (FrozeProcessesByCurrentBlockNum s b).processes[i]? =
      (s.processes[i]?).map (fun p =>
        if p.status = ProcessStatus.on ∧ p.resPubStartBlock ≤ b then
          { p with status := ProcessStatus.frozen }
        else p) := by
  constructor
  · simp [FrozeProcessesByCurrentBlockNum]
  · intro i
    simp only [FrozeProcessesByCurrentBlockNum, List.getElem?_map]
    cases hp : s.processes[i]? with
    | none => rfl
    | some p =>
        simp only [Option.map_some']
        by_cases h1 : p.status = ProcessStatus.on <;>
          by_cases h2 : p.resPubStartBlock ≤ b
        · rw [if_pos ⟨h2, h1⟩, if_pos ⟨h1, h2⟩]
        · rw [if_neg (fun hc => h2 hc.1), if_neg (fun hc => h2 hc.2)]
        · rw [if_neg (fun hc => h1 hc.2), if_neg (fun hc => h1 hc.1)]
        · rw [if_neg (fun hc => h1 hc.2), if_neg (fun hc => h1 hc.1)]

/-- Claim C2: storing a process under a fresh id succeeds, and reading the
status of that id afterwards yields `On`. -/
theorem storeProcess_getStatus_on (s : Store) (now id : Nat)
    (censusRoot : List Nat)
    (censusSize ethBlockNum resPubStartBlock resPubWindow minParticipation
      minPositiveVotes typ : Nat)
    (h : ∀ p ∈ s.processes, p.id ≠ id) :
    ∃ s', StoreProcess s now id censusRoot censusSize ethBlockNum
        resPubStartBlock resPubWindow minParticipation minPositiveVotes typ
        = .ok s' ∧
      GetProcessStatus s' id = .ok ProcessStatus.on := by
  have hno : ¬ ∃ p ∈ s.processes, p.id = id := by
    rintro ⟨p, hp, hid⟩
    exact h p hp hid
  have hfind : s.processes.find? (fun p => decide (p.id = id)) = none :=
    List.find?_eq_none.mpr (fun p hp => by simpa using h p hp)
  refine ⟨{ s with processes := s.processes ++ [processRowOf now id censusRoot
      censusSize ethBlockNum resPubStartBlock resPubWindow minParticipation
      minPositiveVotes typ] }, ?_, ?_⟩
  · simp only [StoreProcess, if_neg hno]
  · simp [GetProcessStatus, List.find?_append, hfind, processRowOf]

/-- Closed witness for claim C2 at the empty store and id 123. -/
theorem storeProcess_getStatus_on_witness :
    (∀ p ∈ emptyStore.processes, p.id ≠ 123) ∧
    ∃ s', StoreProcess emptyStore 0 123 [1] 100 10 20 20 20 60 1 = .ok s' ∧
      GetProcessStatus s' 123 = .ok ProcessStatus.on :=
  ⟨by decide,
    storeProcess_getStatus_on emptyStore 0 123 [1] 100 10 20 20 20 60 1
      (by decide)⟩

/-- Claim C5: updating the status of an id that is not in the store is not
an error (the function is total) and leaves the whole store unchanged. -/
theorem updateProcessStatus_absent_noop (s : Store) (id : Nat)
    (status : ProcessStatus) (h : ∀ p ∈ s.processes, p.id ≠ id) :
    UpdateProcessStatus s id status = s := by
  have hmap : s.processes.map (fun p =>
      if p.id = id then { p with status := status } else p) = s.processes := by
    have := List.map_congr_left
      (l := s.processes)
      (f := fun p => if p.id = id then { p with status := status } else p)
      (g := fun p => p)
      (fun p hp => by simp [h p hp])
    simpa using this
  simp [UpdateProcessStatus, hmap]

/-- Closed witness for claim C5: updating the status of the absent id 2 in
the concrete store leaves it untouched. -/
theorem updateProcessStatus_absent_noop_witness :
    (∀ p ∈ cxStore.processes, p.id ≠ 2) ∧
    UpdateProcessStatus cxStore 2 ProcessStatus.frozen = cxStore :=
  ⟨by decide, updateProcessStatus_absent_noop cxStore 2 ProcessStatus.frozen
    (by decide)⟩

/-- Claim C7: on a store whose meta table was never initialized, reading the
checkpoint fails with the meta-not-in-db error; after a single `InitMeta`
with block number `n` it returns `n`; after a further
`UpdateLastSyncBlockNum m` it returns `m`. -/
theorem meta_lifecycle_spec (s : Store) (now chainID n m : Nat)
    (hmeta : s.meta = []) (hseq : s.metaSeq = 0) :
    GetLastSyncBlockNum s = .error DBError.metaNotInDB ∧
    GetLastSyncBlockNum (InitMeta s now chainID n) = .ok n ∧
    GetLastSyncBlockNum
        (UpdateLastSyncBlockNum (InitMeta s now chainID n) m) = .ok m := by
  refine ⟨?_, ?_, ?_⟩
  · simp [GetLastSyncBlockNum, hmeta]
  · simp [GetLastSyncBlockNum, InitMeta, hmeta, hseq]
  · simp [GetLastSyncBlockNum, InitMeta, UpdateLastSyncBlockNum, hmeta, hseq]

/-- Closed witness for claim C7, following the spec's scenario
`init(chainID=42, 0)` then `advance(1234)` on a fresh store. -/
theorem meta_lifecycle_spec_witness :
    (emptyStore.meta = [] ∧ emptyStore.metaSeq = 0) ∧
    (GetLastSyncBlockNum emptyStore = .error DBError.metaNotInDB ∧
     GetLastSyncBlockNum (InitMeta emptyStore 7 42 0) = .ok 0 ∧
     GetLastSyncBlockNum
         (UpdateLastSyncBlockNum (InitMeta emptyStore 7 42 0) 1234)
       = .ok 1234) :=
  ⟨⟨rfl, rfl⟩, meta_lifecycle_spec emptyStore 7 42 0 1234 rfl rfl⟩

/-- Claim C10: selecting the vote packages of a processID for which no
package is stored — in particular a processID that no process has — returns
the empty list; the read itself has no process-not-found failure mode. -/
theorem readVotePackagesByProcessID_empty (s : Store) (processID : Nat)
    (h : ∀ r ∈ s.votepackages, r.processID ≠ processID) :
    ReadVotePackagesByProcessID s processID = [] := by
  have hfil : s.votepackages.filter
      (fun r => decide (r.processID = processID)) = [] :=
    List.filter_eq_nil_iff.mpr (fun r hr => by simpa using h r hr)
  simp [ReadVotePackagesByProcessID, hfil]

/-- Closed witness for claim C10: the concrete store has a package for
process 1 but none for the nonexistent process 2, and the read for
process 2 returns the empty list. -/
theorem readVotePackagesByProcessID_empty_witness :
    (∀ r ∈ cxStore.votepackages, r.processID ≠ 2) ∧
    ReadVotePackagesByProcessID cxStore 2 = [] :=
  ⟨by decide, readVotePackagesByProcessID_empty cxStore 2 (by decide)⟩

/-- Inversion of a successful `StoreVotePackage`: the referenced process
exists and the only change is the appended row. -/
theorem storeVotePackage_ok_inv {s : Store} {now processID : Nat}
    {vote : VotePackage} {s' : Store}
    (h : StoreVotePackage s now processID vote = .ok s') :
    (∃ p ∈ s.processes, p.id = processID) ∧
    s' = { s with
      votepackages := s.votepackages ++ [voteRowOf now processID vote] } := by
  by_cases h1 : ∃ r ∈ s.votepackages, r.indx = vote.censusProof.index
  · simp [StoreVotePackage, h1] at h
  · by_cases h2 : ∃ r ∈ s.votepackages,
        r.merkleproof = vote.censusProof.merkleProof
    · simp [StoreVotePackage, h1, h2] at h
    · by_cases h3 : ∃ r ∈ s.votepackages,
          r.publicKey = vote.censusProof.publicKey
      · simp [StoreVotePackage, h1, h2, h3] at h
      · by_cases h4 : ∃ p ∈ s.processes, p.id = processID
        · refine ⟨h4, ?_⟩
          simp only [StoreVotePackage, if_neg h1, if_neg h2, if_neg h3,
            if_pos h4, Except.ok.injEq] at h
          exact h.symm
        · simp [StoreVotePackage, h1, h2, h3, h4] at h

/-- Claim C3 counterexample: in a store holding a vote package with index 5
for the existing process 1, appending a package that reuses index 5 under
the nonexistent processID 2 fails with the duplicate-index error, not with
the process-not-found error, because SQLite checks the uniqueness
constraints before the foreign key. -/
theorem storeVotePackage_missing_process_counterexample :
    (∀ p ∈ cxStore.processes, p.id ≠ 2) ∧
    StoreVotePackage cxStore 0 2 cxVote
      = .error DBError.uniqueVotepackagesIndx ∧
    ¬ StoreVotePackage cxStore 0 2 cxVote
      = .error (DBError.processNotFound 2) := by
  refine ⟨by decide, rfl, ?_⟩
  intro hcontra
  rw [show StoreVotePackage cxStore 0 2 cxVote
      = .error DBError.uniqueVotepackagesIndx from rfl] at hcontra
  exact absurd (Except.error.inj hcontra) (by decide)

/-- Claim C3 as amended: appending a vote package for a processID that no
process has fails with the process-not-found domain error, provided the
package does not first trip one of the uniqueness constraints (in which
case the corresponding duplicate error takes precedence); no row is
inserted in either case, the failing operation returning no new store. -/
theorem storeVotePackage_missing_process_spec (s : Store)
    (now processID : Nat) (vote : VotePackage)
    (hidx : ∀ r ∈ s.votepackages, r.indx ≠ vote.censusProof.index)
    (hpk : ∀ r ∈ s.votepackages, r.publicKey ≠ vote.censusProof.publicKey)
    (hmp : ∀ r ∈ s.votepackages, r.merkleproof ≠ vote.censusProof.merkleProof)
    (hpid : ∀ p ∈ s.processes, p.id ≠ processID) :
    StoreVotePackage s now processID vote
      = .error (DBError.processNotFound processID) := by
  have h1 : ¬ ∃ r ∈ s.votepackages, r.indx = vote.censusProof.index := by
    rintro ⟨r, hr, he⟩; exact hidx r hr he
  have h2 : ¬ ∃ r ∈ s.votepackages,
      r.publicKey = vote.censusProof.publicKey := by
    rintro ⟨r, hr, he⟩; exact hpk r hr he
  have h3 : ¬ ∃ r ∈ s.votepackages,
      r.merkleproof = vote.censusProof.merkleProof := by
    rintro ⟨r, hr, he⟩; exact hmp r hr he
  have h4 : ¬ ∃ p ∈ s.processes, p.id = processID := by
    rintro ⟨p, hp, he⟩; exact hpid p hp he
  simp only [StoreVotePackage, if_neg h1, if_neg h2, if_neg h3, if_neg h4]

/-- Closed witness for the amended claim C3: on the empty store, appending
for the nonexistent process 123 fails with the process-not-found error. -/
theorem storeVotePackage_missing_process_spec_witness :
    StoreVotePackage emptyStore 0 123 cxVote
      = .error (DBError.processNotFound 123) :=
  storeVotePackage_missing_process_spec emptyStore 0 123 cxVote
    (by decide) (by decide) (by decide) (by decide)

/-- Claim C4: a duplicate process id fails with the processes.id
uniqueness error; a duplicate vote-package index with the indx uniqueness
error; fresh index and merkle proof but a duplicate public key with the
publicKey uniqueness error; a fresh index but duplicate merkle proof with
the merkleproof uniqueness error (the autoindex check order being indx,
merkleproof, publicKey); and the four errors are pairwise distinct. -/
theorem duplicate_error_spec (s : Store) (now id : Nat)
    (censusRoot : List Nat)
    (censusSize ethBlockNum resPubStartBlock resPubWindow minParticipation
      minPositiveVotes typ : Nat)
    (processID : Nat) (vote : VotePackage) :
    ((∃ p ∈ s.processes, p.id = id) →
      StoreProcess s now id censusRoot censusSize ethBlockNum
          resPubStartBlock resPubWindow minParticipation minPositiveVotes typ
        = .error DBError.uniqueProcessesId) ∧
    ((∃ r ∈ s.votepackages, r.indx = vote.censusProof.index) →
      StoreVotePackage s now processID vote
        = .error DBError.uniqueVotepackagesIndx) ∧
    ((∀ r ∈ s.votepackages, r.indx ≠ vote.censusProof.index) →
      (∀ r ∈ s.votepackages, r.merkleproof ≠ vote.censusProof.merkleProof) →
      (∃ r ∈ s.votepackages, r.publicKey = vote.censusProof.publicKey) →
      StoreVotePackage s now processID vote
        = .error DBError.uniqueVotepackagesPublicKey) ∧
    ((∀ r ∈ s.votepackages, r.indx ≠ vote.censusProof.index) →
      (∃ r ∈ s.votepackages, r.merkleproof = vote.censusProof.merkleProof) →
      StoreVotePackage s now processID vote
        = .error DBError.uniqueVotepackagesMerkleproof) ∧
    (DBError.uniqueProcessesId ≠ DBError.uniqueVotepackagesIndx ∧
     DBError.uniqueProcessesId ≠ DBError.uniqueVotepackagesPublicKey ∧
     DBError.uniqueProcessesId ≠ DBError.uniqueVotepackagesMerkleproof ∧
     DBError.uniqueVotepackagesIndx ≠ DBError.uniqueVotepackagesPublicKey ∧
     DBError.uniqueVotepackagesIndx ≠ DBError.uniqueVotepackagesMerkleproof ∧
     DBError.uniqueVotepackagesPublicKey
       ≠ DBError.uniqueVotepackagesMerkleproof) := by
  refine ⟨fun h1 => ?_, fun h2 => ?_, fun hn1 hn2 h3 => ?_,
    fun hn1 h4 => ?_, by decide⟩
  · simp only [StoreProcess, if_pos h1]
  · simp only [StoreVotePackage, if_pos h2]
  · have hx1 : ¬ ∃ r ∈ s.votepackages, r.indx = vote.censusProof.index := by
      rintro ⟨r, hr, he⟩; exact hn1 r hr he
    have hx2 : ¬ ∃ r ∈ s.votepackages,
        r.merkleproof = vote.censusProof.merkleProof := by
      rintro ⟨r, hr, he⟩; exact hn2 r hr he
    simp only [StoreVotePackage, if_neg hx1, if_neg hx2, if_pos h3]
  · have hx1 : ¬ ∃ r ∈ s.votepackages, r.indx = vote.censusProof.index := by
      rintro ⟨r, hr, he⟩; exact hn1 r hr he
    simp only [StoreVotePackage, if_neg hx1, if_pos h4]

/-- Closed witness for claim C4: each duplicate case at the concrete
store. -/
theorem duplicate_error_spec_witness :
    StoreProcess cxStore 9 1 [2] 1 1 10 5 1 1 1
      = .error DBError.uniqueProcessesId ∧
    StoreVotePackage cxStore 9 1 cxVote
      = .error DBError.uniqueVotepackagesIndx ∧
    StoreVotePackage cxStore 9 1 vpPkDup
      = .error DBError.uniqueVotepackagesPublicKey ∧
    StoreVotePackage cxStore 9 1 vpMpDup
      = .error DBError.uniqueVotepackagesMerkleproof :=
  ⟨(duplicate_error_spec cxStore 9 1 [2] 1 1 10 5 1 1 1 1 cxVote).1
      (by decide),
   (duplicate_error_spec cxStore 9 1 [2] 1 1 10 5 1 1 1 1 cxVote).2.1
      (by decide),
   (duplicate_error_spec cxStore 9 1 [2] 1 1 10 5 1 1 1 1 vpPkDup).2.2.1
      (by decide) (by decide) (by decide),
   (duplicate_error_spec cxStore 9 1 [2] 1 1 10 5 1 1 1 1 vpMpDup).2.2.2.1
      (by decide) (by decide)⟩

/-- Claim C6: when the stored indices are pairwise distinct (the indx
PRIMARY KEY invariant), reading the vote packages of a processID returns
exactly the rows stored for that processID — a permutation of the
selection — converted back to vote packages in strictly increasing index
order. -/
theorem readVotePackagesByProcessID_sorted_spec (s : Store)
    (processID : Nat)
    (h : (s.votepackages.map VotePackageRow.indx).Nodup) :
    ∃ rows : List VotePackageRow,
      rows.Perm (s.votepackages.filter
        (fun r => decide (r.processID = processID))) ∧
      rows.Pairwise (fun a b => a.indx < b.indx) ∧
      ReadVotePackagesByProcessID s processID = rows.map rowToVotePackage := by
  refine ⟨List.insertionSort vpLe (s.votepackages.filter
      (fun r => decide (r.processID = processID))),
    List.perm_insertionSort vpLe _, ?_, rfl⟩
  have hsorted := List.sorted_insertionSort vpLe (s.votepackages.filter
      (fun r => decide (r.processID = processID)))
  have hsubl : ((s.votepackages.filter
        (fun r => decide (r.processID = processID))).map
        VotePackageRow.indx).Sublist
      (s.votepackages.map VotePackageRow.indx) :=
    (List.filter_sublist s.votepackages).map VotePackageRow.indx
  have hndfil : ((s.votepackages.filter
        (fun r => decide (r.processID = processID))).map
        VotePackageRow.indx).Nodup :=
    List.Nodup.sublist hsubl h
  have hperm : ((List.insertionSort vpLe (s.votepackages.filter
        (fun r => decide (r.processID = processID)))).map
        VotePackageRow.indx).Perm
      ((s.votepackages.filter
        (fun r => decide (r.processID = processID))).map
        VotePackageRow.indx) :=
    (List.perm_insertionSort vpLe _).map VotePackageRow.indx
  have hnd : ((List.insertionSort vpLe (s.votepackages.filter
        (fun r => decide (r.processID = processID)))).map
        VotePackageRow.indx).Nodup :=
    hperm.nodup_iff.mpr hndfil
  have hne : (List.insertionSort vpLe (s.votepackages.filter
        (fun r => decide (r.processID = processID)))).Pairwise
      (fun a b => a.indx ≠ b.indx) :=
    List.pairwise_map.mp hnd
  exact (hsorted.and hne).imp (fun hab =>
    lt_of_le_of_ne hab.1 hab.2)

/-- Closed witness for claim C6 at a store whose two packages for
process 1 are stored out of index order. -/
theorem readVotePackagesByProcessID_sorted_spec_witness :
    ((w6Store.votepackages.map VotePackageRow.indx).Nodup) ∧
    ∃ rows : List VotePackageRow,
      rows.Perm (w6Store.votepackages.filter
        (fun r => decide (r.processID = 1))) ∧
      rows.Pairwise (fun a b => a.indx < b.indx) ∧
      ReadVotePackagesByProcessID w6Store 1 = rows.map rowToVotePackage :=
  ⟨by decide, readVotePackagesByProcessID_sorted_spec w6Store 1 (by decide)⟩

/-- Claim C8: `UpdateProcessStatus` and `FrozeProcessesByCurrentBlockNum`
keep the number of processes and, row by row, change nothing but the
status column; a successful `StoreVotePackage` and the meta operations
leave the processes table untouched; and a successful `StoreProcess` only
appends, leaving every existing row in place. -/
theorem process_fields_immutable_spec (s : Store) (id b : Nat)
    (status : ProcessStatus) :
    (UpdateProcessStatus s id status).processes.length
        = s.processes.length ∧
    (FrozeProcessesByCurrentBlockNum s b).processes.length
        = s.processes.length ∧
    (∀ i : Nat, ∀ p, s.processes[i]? = some p →
      ∃ q, (UpdateProcessStatus s id status).processes[i]? = some q ∧
        sameExceptStatus p q) ∧
    (∀ i : Nat, ∀ p, s.processes[i]? = some p →
      ∃ q, (FrozeProcessesByCurrentBlockNum s b).processes[i]? = some q ∧
        sameExceptStatus p q) ∧
    (∀ now processID vote s',
      StoreVotePackage s now processID vote = .ok s' →
      s'.processes = s.processes) ∧
    (∀ now chainID n, (InitMeta s now chainID n).processes = s.processes) ∧
    (∀ n, (UpdateLastSyncBlockNum s n).processes = s.processes) ∧
    (∀ now id' censusRoot censusSize ethBlockNum resPubStartBlock
        resPubWindow minParticipation minPositiveVotes typ s',
      StoreProcess s now id' censusRoot censusSize ethBlockNum
          resPubStartBlock resPubWindow minParticipation minPositiveVotes typ
        = .ok s' →
      s'.processes = s.processes ++ [processRowOf now id' censusRoot
        censusSize ethBlockNum resPubStartBlock resPubWindow
        minParticipation minPositiveVotes typ]) := by
  refine ⟨by simp [UpdateProcessStatus],
    by simp [FrozeProcessesByCurrentBlockNum], ?_, ?_, ?_, ?_, ?_, ?_⟩
  · intro i p hp
    simp only [UpdateProcessStatus, List.getElem?_map, hp, Option.map_some']
    refine ⟨_, rfl, ?_⟩
    by_cases hid : p.id = id <;> simp [hid, sameExceptStatus]
  · intro i p hp
    simp only [FrozeProcessesByCurrentBlockNum, List.getElem?_map, hp,
      Option.map_some']
    refine ⟨_, rfl, ?_⟩
    by_cases hc : p.resPubStartBlock ≤ b ∧ p.status = ProcessStatus.on <;>
      simp [hc, sameExceptStatus]
  · intro now processID vote s' h
    rw [(storeVotePackage_ok_inv h).2]
  · intro now chainID n
    rfl
  · intro n
    rfl
  · intro now id' censusRoot censusSize ethBlockNum resPubStartBlock
      resPubWindow minParticipation minPositiveVotes typ s' h
    by_cases hdup : ∃ p ∈ s.processes, p.id = id'
    · simp [StoreProcess, hdup] at h
    · simp only [StoreProcess, if_neg hdup, Except.ok.injEq] at h
      rw [← h]

/-- Closed witness for claim C8 at the concrete store: the frame of the
two status updates on row 0, a successful vote append, and a successful
process creation. -/
theorem process_fields_immutable_spec_witness :
    cxStore.processes[0]? = some cxProcess ∧
    (∃ q, (UpdateProcessStatus cxStore 1
        ProcessStatus.proofGenerating).processes[0]? = some q ∧
      sameExceptStatus cxProcess q) ∧
    (∃ q, (FrozeProcessesByCurrentBlockNum cxStore 25).processes[0]?
        = some q ∧ sameExceptStatus cxProcess q) ∧
    svOkStore.processes = cxStore.processes ∧
    spOkStore.processes
      = cxStore.processes ++ [processRowOf 3 77 [1] 1 1 2 2 1 1 1] :=
  ⟨rfl,
   (process_fields_immutable_spec cxStore 1 25
      ProcessStatus.proofGenerating).2.2.1 0 cxProcess rfl,
   (process_fields_immutable_spec cxStore 1 25
      ProcessStatus.proofGenerating).2.2.2.1 0 cxProcess rfl,
   (process_fields_immutable_spec cxStore 1 25
      ProcessStatus.proofGenerating).2.2.2.2.1 2 1 vpFresh svOkStore rfl,
   (process_fields_immutable_spec cxStore 1 25
      ProcessStatus.proofGenerating).2.2.2.2.2.2.2 3 77 [1] 1 1 2 2 1 1 1
      spOkStore rfl⟩

/-- Claim C9: appending a vote package whose weight is unset stores it with
weight zero, and the subsequent read of that process returns the package
with weight exactly zero. -/
theorem weight_unset_roundtrip_spec (s : Store) (now processID : Nat)
    (vote : VotePackage)
    (hw : vote.censusProof.weight = none)
    (hidx : ∀ r ∈ s.votepackages, r.indx ≠ vote.censusProof.index)
    (hpk : ∀ r ∈ s.votepackages, r.publicKey ≠ vote.censusProof.publicKey)
    (hmp : ∀ r ∈ s.votepackages, r.merkleproof ≠ vote.censusProof.merkleProof)
    (hpid : ∃ p ∈ s.processes, p.id = processID) :
    ∃ s', StoreVotePackage s now processID vote = .ok s' ∧
      ∃ w ∈ ReadVotePackagesByProcessID s' processID,
        w.censusProof.index = vote.censusProof.index ∧
        w.censusProof.weight = some 0 := by
  have h1 : ¬ ∃ r ∈ s.votepackages, r.indx = vote.censusProof.index := by
    rintro ⟨r, hr, he⟩; exact hidx r hr he
  have h2 : ¬ ∃ r ∈ s.votepackages,
      r.publicKey = vote.censusProof.publicKey := by
    rintro ⟨r, hr, he⟩; exact hpk r hr he
  have h3 : ¬ ∃ r ∈ s.votepackages,
      r.merkleproof = vote.censusProof.merkleProof := by
    rintro ⟨r, hr, he⟩; exact hmp r hr he
  refine ⟨{ s with
      votepackages := s.votepackages ++ [voteRowOf now processID vote] },
    by simp only [StoreVotePackage, if_neg h1, if_neg h2, if_neg h3,
      if_pos hpid], ?_⟩
  refine ⟨rowToVotePackage (voteRowOf now processID vote), ?_, rfl, ?_⟩
  · apply List.mem_map_of_mem rowToVotePackage
    apply (List.perm_insertionSort vpLe _).mem_iff.mpr
    apply List.mem_filter.mpr
    exact ⟨List.mem_append_right _ (List.mem_singleton_self _),
      by simp [voteRowOf]⟩
  · simp [rowToVotePackage, voteRowOf, hw, natToBytes, bytesToNat]

/-- Closed witness for claim C9: appending a weight-less package for the
existing process 1 of a store with no packages, then reading it back with
weight zero. -/
theorem weight_unset_roundtrip_spec_witness :
    vpNoWeight.censusProof.weight = none ∧
    (∃ p ∈ w9Store.processes, p.id = 1) ∧
    ∃ s', StoreVotePackage w9Store 4 1 vpNoWeight = .ok s' ∧
      ∃ w ∈ ReadVotePackagesByProcessID s' 1,
        w.censusProof.index = vpNoWeight.censusProof.index ∧
        w.censusProof.weight = some 0 :=
  ⟨rfl, by decide,
   weight_unset_roundtrip_spec w9Store 4 1 vpNoWeight rfl
     (by decide) (by decide) (by decide) (by decide)⟩

end ZkDB
